import Mathlib

/-
Shallow embedding of nvutils::CameraManipulator (src/nvutils/camera_manipulator.cpp
and camera_manipulator.hpp) over the real numbers.

Modelling conventions:
* C++ `float`/`double` arithmetic is embedded as exact real arithmetic; numeric
  literals denote their exact decimal values.  NaN/Inf are not representable in
  the reals, so `std::isnan`/`std::isinf` are identically false here.
* The external clock `getSystemTime()` is threaded through as an explicit
  parameter `now` wherever the source calls it.
* The cached view matrix `m_matrix = glm::lookAt(eye, ctr, up)` is modelled by
  the record of the three lookAt arguments (no claim inspects its entries;
  every claim about the matrix only needs "recomputed from the current pose" /
  "unchanged").
* glm helpers (`dot`, `cross`, `length`, `distance`, `normalize`, `mix`,
  `clamp`, `sign`, `radians`, `degrees`, `rotate`, the 3x3 part of `lookAt`)
  are translated from their glm definitions.  `glm::normalize v = v / ‖v‖`;
  at `v = 0` the real embedding yields the zero vector (division by zero).
-/

open scoped Classical

noncomputable section

namespace nvutils

/-- Components of glm::vec2, embedded over the reals. -/
@[ext]
structure Vec2 where
  x : ℝ
  y : ℝ

/-- Components of glm::vec3, embedded over the reals. -/
@[ext]
structure Vec3 where
  x : ℝ
  y : ℝ
  z : ℝ

instance : Zero Vec2 := ⟨⟨0, 0⟩⟩
instance : Add Vec2 := ⟨fun a b => ⟨a.x + b.x, a.y + b.y⟩⟩
instance : Sub Vec2 := ⟨fun a b => ⟨a.x - b.x, a.y - b.y⟩⟩
instance : SMul ℝ Vec2 := ⟨fun t v => ⟨t * v.x, t * v.y⟩⟩

instance : Zero Vec3 := ⟨⟨0, 0, 0⟩⟩
instance : Add Vec3 := ⟨fun a b => ⟨a.x + b.x, a.y + b.y, a.z + b.z⟩⟩
instance : Sub Vec3 := ⟨fun a b => ⟨a.x - b.x, a.y - b.y, a.z - b.z⟩⟩
instance : Neg Vec3 := ⟨fun a => ⟨-a.x, -a.y, -a.z⟩⟩
instance : SMul ℝ Vec3 := ⟨fun t v => ⟨t * v.x, t * v.y, t * v.z⟩⟩

/-- glm::dot for vec3. -/
def dot3 (a b : Vec3) : ℝ := a.x * b.x + a.y * b.y + a.z * b.z

/-- glm::cross for vec3. -/
def cross3 (a b : Vec3) : Vec3 :=
  ⟨a.y * b.z - a.z * b.y, a.z * b.x - a.x * b.z, a.x * b.y - a.y * b.x⟩

/-- glm::length for vec3: sqrt(dot(v, v)). -/
def norm3 (v : Vec3) : ℝ := Real.sqrt (dot3 v v)

/-- glm::distance(p0, p1) = length(p1 - p0). -/
def dist3 (p0 p1 : Vec3) : ℝ := norm3 (p1 - p0)

/-- glm::normalize: v / length(v); yields the zero vector at v = 0 in the real
embedding (the C++ float version would produce NaN there). -/
def normalize3 (v : Vec3) : Vec3 := (norm3 v)⁻¹ • v

/-- glm::radians: degrees to radians. -/
def radians (x : ℝ) : ℝ := x * (Real.pi / 180)

/-- glm::degrees: radians to degrees. -/
def degrees (x : ℝ) : ℝ := x * (180 / Real.pi)

/-- glm::clamp for scalars. -/
def clampR (x lo hi : ℝ) : ℝ := min (max x lo) hi

/-- glm::mix for scalars: x * (1 - a) + y * a. -/
def mixR (x y a : ℝ) : ℝ := x * (1 - a) + y * a

/-- glm::mix componentwise on vec2. -/
def mix2 (u v : Vec2) (a : ℝ) : Vec2 := ⟨mixR u.x v.x a, mixR u.y v.y a⟩

/-- glm::mix componentwise on vec3. -/
def mix3 (u v : Vec3) (a : ℝ) : Vec3 := ⟨mixR u.x v.x a, mixR u.y v.y a, mixR u.z v.z a⟩

/-- glm::sign for scalars. -/
def glmSign (x : ℝ) : ℝ := if 0 < x then 1 else if x < 0 then -1 else 0

/-- Application of the 3x3 part of glm::rotate(mat4(1), angle, axis) to a
vector, i.e. rotMat * vec4(v, 0).  glm normalizes the axis and builds the
Rodrigues rotation matrix from cos/sin of the angle; the entries below are the
glm matrix entries (column-major in glm, written here as the row action). -/
def glmRotate (angle : ℝ) (axisIn v : Vec3) : Vec3 :=
  let c := Real.cos angle
  let s := Real.sin angle
  let axis := normalize3 axisIn
  let t : Vec3 := (1 - c) • axis
  ⟨(c + t.x * axis.x) * v.x + (t.y * axis.x - s * axis.z) * v.y + (t.z * axis.x + s * axis.y) * v.z,
   (t.x * axis.y + s * axis.z) * v.x + (c + t.y * axis.y) * v.y + (t.z * axis.y - s * axis.x) * v.z,
   (t.x * axis.z - s * axis.y) * v.x + (t.y * axis.z + s * axis.x) * v.y + (c + t.z * axis.z) * v.z⟩

/-- Application of the 3x3 part of glm::lookAt(eye, center, up) to a vector
(mat3(mView) * v), used by the tight branch of fit. -/
def lookAtRot (eye center up v : Vec3) : Vec3 :=
  let f := normalize3 (center - eye)
  let s := normalize3 (cross3 f up)
  let u := cross3 s f
  ⟨dot3 s v, dot3 u v, -(dot3 f v)⟩

namespace CameraConstants

/-- CameraConstants::EPSILON = 1e-6f. -/
def EPSILON : ℝ := 1 / 1000000

/-- CameraConstants::MIN_DISTANCE = 0.000001f. -/
def MIN_DISTANCE : ℝ := 1 / 1000000

/-- CameraConstants::MIN_FOV = 0.01f degrees. -/
def MIN_FOV : ℝ := 1 / 100

/-- CameraConstants::MAX_FOV = 179.0f degrees. -/
def MAX_FOV : ℝ := 179

/-- CameraConstants::MIN_ORTHOGRAPHIC_SIZE = 0.01f. -/
def MIN_ORTHOGRAPHIC_SIZE : ℝ := 1 / 100

/-- CameraConstants::MAX_DOLLY_DISPLACEMENT = 0.99f. -/
def MAX_DOLLY_DISPLACEMENT : ℝ := 99 / 100

/-- CameraConstants::DEFAULT_ANIMATION_DURATION = 0.5 seconds. -/
def DEFAULT_ANIMATION_DURATION : ℝ := 1 / 2

/-- Aspect-ratio floor (source name ends differently: the constant is the
aspect-ratio safety minimum, equal to EPSILON). -/
def MIN_ASPECT : ℝ := EPSILON

end CameraConstants

/-- CameraManipulator::Modes. -/
inductive Modes where
  | Examine
  | Fly
  | Walk
deriving DecidableEq

/-- CameraManipulator::Actions. -/
inductive Actions where
  | NoAction
  | Orbit
  | Dolly
  | Pan
  | LookAround
deriving DecidableEq

/-- CameraManipulator::ProjectionType (Perspective = 0, Orthographic = 1). -/
inductive ProjectionType where
  | Perspective
  | Orthographic
deriving DecidableEq

/-- CameraManipulator::Inputs: mouse buttons and keyboard modifiers. -/
structure Inputs where
  lmb : Bool := false
  mmb : Bool := false
  rmb : Bool := false
  shift : Bool := false
  ctrl : Bool := false
  alt : Bool := false
deriving DecidableEq

/-- CameraManipulator::Camera, with the default member initializers of the
header. -/
@[ext]
structure Camera where
  eye : Vec3 := ⟨10, 10, 10⟩
  ctr : Vec3 := ⟨0, 0, 0⟩
  up : Vec3 := ⟨0, 1, 0⟩
  fov : ℝ := 60
  nearFar : Vec2 := ⟨1 / 1000, 100000⟩
  orthMag : Vec2 := ⟨5, 5⟩
  projectionType : ProjectionType := ProjectionType.Perspective

/-- Model of the cached view matrix m_matrix: glm::lookAt is recorded by its
three arguments (no claim inspects the matrix entries). -/
@[ext]
structure LookAtView where
  eye : Vec3
  ctr : Vec3
  up : Vec3

/-- The part of a glm::mat4 that CameraManipulator::setMatrix reads: the three
basis columns of the 3x3 rotation block and the xyz of the translation column
(the fourth row is never consumed by setMatrix). -/
structure Mat4 where
  col0 : Vec3
  col1 : Vec3
  col2 : Vec3
  col3 : Vec3

/-- CameraManipulator state, with the default member initializers of the
header.  The default `matrix` is a placeholder: the C++ constructor
immediately overwrites m_matrix via updateLookatMatrix (see initManip). -/
@[ext]
structure Manip where
  matrix : LookAtView := ⟨0, 0, 0⟩
  current : Camera := {}
  goal : Camera := {}
  snapshot : Option Camera := none
  bezier0 : Vec3 := 0
  bezier1 : Vec3 := 0
  bezier2 : Vec3 := 0
  animDollyZoom0 : ℝ := 0
  animDollyZoom1 : ℝ := 0
  startTime : ℝ := 0
  duration : ℝ := CameraConstants.DEFAULT_ANIMATION_DURATION
  isAnimating : Bool := false
  windowSize : ℕ × ℕ := (1, 1)
  speed : ℝ := 3
  mouse : Vec2 := 0
  mode : Modes := Modes.Examine

/-- CameraManipulator::isValidPosition: the NaN/Inf checks are identically
true over the reals (no NaN/Inf values exist in this embedding). -/
def isValidPosition (_pos : Vec3) : Prop := True

/-- CameraManipulator::isValidDirection: finite components and length above
EPSILON. -/
def isValidDirection (dir : Vec3) : Prop :=
  isValidPosition dir ∧ CameraConstants.EPSILON < norm3 dir

/-- CameraManipulator::validateCamera. -/
def validateCamera (cam : Camera) : Prop :=
  (isValidPosition cam.eye ∧ isValidPosition cam.ctr ∧ isValidDirection cam.up)
  ∧ ¬(dist3 cam.eye cam.ctr < CameraConstants.MIN_DISTANCE)
  ∧ ¬(cam.fov < CameraConstants.MIN_FOV ∨ CameraConstants.MAX_FOV < cam.fov)

/-- CameraManipulator::updateLookatMatrix: m_matrix = glm::lookAt(eye, ctr, up). -/
def updateLookatMatrix (s : Manip) : Manip :=
  { s with matrix := ⟨s.current.eye, s.current.ctr, s.current.up⟩ }

/-- State of a freshly constructed CameraManipulator: member initializers,
then the constructor calls updateLookatMatrix. -/
def initManip : Manip := updateLookatMatrix {}

/-- CameraManipulator::getAspectRatio: windowSize.x / windowSize.y as reals. -/
def getAspectRatio (s : Manip) : ℝ := (s.windowSize.1 : ℝ) / (s.windowSize.2 : ℝ)

/-- CameraManipulator::getRadFov. -/
def getRadFov (s : Manip) : ℝ := radians s.current.fov

/-- CameraManipulator::getViewDimensions, returned as (width, height). -/
def getViewDimensions (s : Manip) : ℝ × ℝ :=
  if s.current.projectionType = ProjectionType.Orthographic then
    (s.current.orthMag.x * 2, s.current.orthMag.y * 2)
  else
    let distance := norm3 (s.current.eye - s.current.ctr)
    let halfHeight := distance * Real.tan (getRadFov s * 0.5)
    let viewHeight := 2 * halfHeight
    let viewWidth := viewHeight * max (getAspectRatio s) CameraConstants.MIN_ASPECT
    (viewWidth, viewHeight)

/-- CameraManipulator::CameraFrame. -/
structure CameraFrame where
  forward : Vec3
  right : Vec3
  up : Vec3

/-- CameraManipulator::computeCameraFrame. -/
def computeCameraFrame (s : Manip) : CameraFrame :=
  let viewDelta := s.current.ctr - s.current.eye
  if norm3 viewDelta < CameraConstants.EPSILON then
    ⟨⟨0, 0, -1⟩, ⟨1, 0, 0⟩, ⟨0, 1, 0⟩⟩
  else
    let forward := normalize3 viewDelta
    let right := cross3 forward s.current.up
    let right :=
      if dot3 right right < CameraConstants.EPSILON then
        let fallbackUp : Vec3 := if |forward.y| < 99 / 100 then ⟨0, 1, 0⟩ else ⟨1, 0, 0⟩
        cross3 forward fallbackUp
      else right
    let right := normalize3 right
    ⟨forward, right, cross3 right forward⟩

/-- CameraManipulator::projectToGroundPlane. -/
def projectToGroundPlane (s : Manip) (vec : Vec3) : Vec3 :=
  let upLen2 := dot3 s.current.up s.current.up
  if upLen2 < CameraConstants.EPSILON then vec
  else vec - (dot3 vec s.current.up / upLen2) • s.current.up

/-- CameraManipulator::zoomOrthographic. -/
def zoomOrthographic (s : Manip) (factor : ℝ) : Manip :=
  { s with current := { s.current with orthMag :=
      ⟨max (s.current.orthMag.x * factor) CameraConstants.MIN_ORTHOGRAPHIC_SIZE,
       max (s.current.orthMag.y * factor) CameraConstants.MIN_ORTHOGRAPHIC_SIZE⟩ } }

/-- CameraManipulator::setFov: clamp to [MIN_FOV, MAX_FOV]. -/
def setFov (s : Manip) (fovDegree : ℝ) : Manip :=
  { s with current := { s.current with fov := (
      min (max fovDegree CameraConstants.MIN_FOV) CameraConstants.MAX_FOV) } }

/-- CameraManipulator::applyCameraInstant. -/
def applyCameraInstant (s : Manip) (camera : Camera) : Manip :=
  updateLookatMatrix { s with current := camera, snapshot := none, isAnimating := false }

/-- CameraManipulator::applyUserChange: cancel the animation, optionally
refresh the view matrix. -/
def applyUserChange (s : Manip) (updateMatrix : Bool) : Manip :=
  let s := { s with isAnimating := false }
  if updateMatrix then updateLookatMatrix s else s

/-- Quadratic Bezier curve, CameraManipulator::computeBezier. -/
def computeBezier (t : ℝ) (p0 p1 p2 : Vec3) : Vec3 :=
  let u := 1 - t
  let tt := t * t
  let uu := u * u
  uu • p0 + (2 * u * t) • p1 + tt • p2

/-- CameraManipulator::findBezierPoints. -/
def findBezierPoints (s : Manip) : Manip :=
  match s.snapshot with
  | none => s
  | some snap =>
    let p0 := s.current.eye
    let p2 := s.goal.eye
    let poi := (0.5 : ℝ) • (s.goal.ctr + snap.ctr)
    let mid := (0.5 : ℝ) • (p0 + p2)
    let radius := 0.5 * (norm3 (p0 - poi) + norm3 (p2 - poi))
    let toMid := mid - poi
    let toMid := if dot3 toMid toMid < CameraConstants.EPSILON then (⟨0, 0, 1⟩ : Vec3) else toMid
    let pc := poi + radius • normalize3 toMid
    let p1 := (2 : ℝ) • pc - (0.5 : ℝ) • (p0 + p2)
    let avgUp := normalize3 (snap.up + s.goal.up)
    let projection := dot3 (mid - p1) avgUp
    let p1 := p1 + projection • avgUp
    { s with bezier0 := p0, bezier1 := p1, bezier2 := p2 }

/-- CameraManipulator::startAnimationTo; `now` is the getSystemTime() value. -/
def startAnimationTo (s : Manip) (camera : Camera) (now : ℝ) : Manip :=
  let s := { s with goal := camera, snapshot := some s.current, startTime := now,
                    isAnimating := true }
  let s := findBezierPoints s
  match s.snapshot with
  | none => s
  | some snap =>
    let d0 := norm3 (snap.eye - snap.ctr)
    let d1 := norm3 (s.goal.eye - s.goal.ctr)
    { s with animDollyZoom0 := d0 * Real.tan (radians (snap.fov * 0.5)),
             animDollyZoom1 := d1 * Real.tan (radians (s.goal.fov * 0.5)) }

/-- CameraManipulator::setCamera; `now` is the getSystemTime() value consumed
if an animation starts. -/
def setCamera (s : Manip) (camera : Camera) (instantSet : Bool) (now : ℝ) : Manip :=
  if ¬validateCamera camera then s
  else
    let camera := { camera with up := normalize3 camera.up }
    let s := { s with isAnimating := false }
    let instantSet := if camera.projectionType ≠ s.current.projectionType then true else instantSet
    if instantSet = true ∨ s.duration = 0 then applyCameraInstant s camera
    else if camera ≠ s.current then startAnimationTo s camera now
    else s

/-- Camera that setLookat builds: the current camera with eye, center and up
replaced (preserving projection, clip planes and orthographic size). -/
def lookatCamera (cur : Camera) (eye center up : Vec3) : Camera :=
  { cur with eye := eye, ctr := center, up := up }

/-- CameraManipulator::setLookat. -/
def setLookat (s : Manip) (eye center up : Vec3) (instantSet : Bool) (now : ℝ) : Manip :=
  let cam := lookatCamera s.current eye center up
  if ¬validateCamera cam then s
  else setCamera s cam instantSet now

/-- Camera that setMatrix derives from a transform: eye is the translation
column, ctr is eye + rotMat * vec3(0, 0, -centerDistance) which equals
(-centerDistance) times the third basis column, up is hard-coded (0, 1, 0),
and the remaining fields come from the current camera. -/
def matrixCamera (cur : Camera) (M : Mat4) (centerDistance : ℝ) : Camera :=
  let forwardVector := (-centerDistance) • M.col2
  { cur with eye := M.col3, ctr := M.col3 + forwardVector, up := (⟨0, 1, 0⟩ : Vec3) }

/-- CameraManipulator::setMatrix. -/
def setMatrix (s : Manip) (matrix : Mat4) (instantSet : Bool) (centerDistance : ℝ) (now : ℝ) : Manip :=
  let camera := matrixCamera s.current matrix centerDistance
  if ¬validateCamera camera then s
  else if instantSet then applyCameraInstant s camera
  else startAnimationTo s camera now

/-- CameraManipulator::pan. -/
def pan (s : Manip) (displacement : Vec2) : Manip :=
  if displacement = (0 : Vec2) then s
  else
    let displacement := if s.mode = Modes.Fly then (-1 : ℝ) • displacement else displacement
    let frame := computeCameraFrame s
    let view := getViewDimensions s
    let panOffset := (-displacement.x * view.1) • frame.right + (displacement.y * view.2) • frame.up
    { s with current := { s.current with eye := s.current.eye + panOffset,
                                         ctr := s.current.ctr + panOffset } }

/-- CameraManipulator::orbit. -/
def orbit (s : Manip) (displacementIn : Vec2) (invert : Bool) : Manip :=
  if displacementIn = (0 : Vec2) then s
  else
    let displacement := (2 * Real.pi) • displacementIn
    let origin := if invert then s.current.eye else s.current.ctr
    let position := if invert then s.current.ctr else s.current.eye
    let centerToEye := position - origin
    let radius := norm3 centerToEye
    if radius < CameraConstants.EPSILON then s
    else
      let centerToEye := normalize3 centerToEye
      let centerToEye := glmRotate (-displacement.x) s.current.up centerToEye
      let axeX := cross3 s.current.up centerToEye
      if dot3 axeX axeX < CameraConstants.EPSILON then s
      else
        let axeX := normalize3 axeX
        let rotationVec := glmRotate (-displacement.y) axeX centerToEye
        let centerToEye :=
          if glmSign rotationVec.x = glmSign centerToEye.x then rotationVec else centerToEye
        let centerToEye := radius • centerToEye
        let newPosition := centerToEye + origin
        if invert then { s with current := { s.current with ctr := newPosition } }
        else { s with current := { s.current with eye := newPosition } }

/-- CameraManipulator::dolly. -/
def dolly (s : Manip) (displacement : Vec2) (keepCenterFixed : Bool) : Manip :=
  let largerDisplacement :=
    if |displacement.x| > |displacement.y| then displacement.x else -displacement.y
  if s.current.projectionType = ProjectionType.Orthographic then
    zoomOrthographic s (1 - largerDisplacement)
  else
    let directionVec := s.current.ctr - s.current.eye
    let len := norm3 directionVec
    if len < CameraConstants.MIN_DISTANCE then s
    else if largerDisplacement ≥ CameraConstants.MAX_DOLLY_DISPLACEMENT then s
    else
      let directionVec := largerDisplacement • directionVec
      let directionVec :=
        if s.mode = Modes.Walk then projectToGroundPlane s directionVec else directionVec
      let s' := { s with current := { s.current with eye := s.current.eye + directionVec } }
      if (s.mode = Modes.Fly ∨ s.mode = Modes.Walk) ∧ keepCenterFixed = false then
        { s' with current := { s'.current with ctr := s'.current.ctr + directionVec } }
      else s'

/-- Smootherstep polynomial from CameraManipulator::updateAnim:
t * t * t * (t * (t * 6 - 15) + 10). -/
def smootherstep (t : ℝ) : ℝ := t * t * t * (t * (t * 6 - 15) + 10)

/-- CameraManipulator::updateAnim; `sysNow` is the getSystemTime() value used
when the caller passes a negative timestamp. -/
def updateAnim (s : Manip) (currentTimeMs sysNow : ℝ) : Manip :=
  let currentTimeMs := if currentTimeMs < 0 then sysNow else currentTimeMs
  let elapse := (currentTimeMs - s.startTime) / 1000
  if s.isAnimating = false then s
  else
    let t := min (elapse / s.duration) 1
    let t := smootherstep t
    if 1 ≤ t then
      updateLookatMatrix { s with current := s.goal, isAnimating := false, snapshot := none }
    else
      match s.snapshot with
      | none => { s with isAnimating := false }
      | some snap =>
        let ctr := mix3 snap.ctr s.goal.ctr t
        let up := mix3 snap.up s.goal.up t
        let eye := computeBezier t s.bezier0 s.bezier1 s.bezier2
        let distance := norm3 (eye - ctr)
        let k := mixR s.animDollyZoom0 s.animDollyZoom1 t
        let fov :=
          if CameraConstants.EPSILON < distance ∧ 0 < k then
            clampR (degrees (2 * Real.arctan (k / distance)))
              CameraConstants.MIN_FOV CameraConstants.MAX_FOV
          else mixR snap.fov s.goal.fov t
        let nearFar := mix2 snap.nearFar s.goal.nearFar t
        let orthMag := mix2 snap.orthMag s.goal.orthMag t
        updateLookatMatrix
          { s with current := { s.current with ctr := ctr, up := up, eye := eye, fov := fov,
                                               nearFar := nearFar, orthMag := orthMag } }

/-- CameraManipulator::motion. -/
def motion (s : Manip) (screenDisplacement : Vec2) (action : Actions) : Manip :=
  let displacement : Vec2 :=
    ⟨(screenDisplacement.x - s.mouse.x) / (s.windowSize.1 : ℝ),
     (screenDisplacement.y - s.mouse.y) / (s.windowSize.2 : ℝ)⟩
  let s' :=
    match action with
    | Actions.Orbit => orbit s displacement false
    | Actions.Dolly => dolly s displacement false
    | Actions.Pan => pan s displacement
    | Actions.LookAround => orbit s ⟨displacement.x, -displacement.y⟩ true
    | Actions.NoAction => s
  let s' := applyUserChange s' true
  { s' with mouse := screenDisplacement }

/-- CameraManipulator::keyMotion. -/
def keyMotion (s : Manip) (delta : Vec2) (action : Actions) : Manip :=
  if delta = (0 : Vec2) then s
  else
    let movementSpeed := s.speed
    let frame := computeCameraFrame s
    let delta := movementSpeed • delta
    let keyboardMovementVector : Vec3 :=
      if action = Actions.Dolly then
        let v := delta.x • frame.forward
        if s.mode = Modes.Walk then projectToGroundPlane s v else v
      else if action = Actions.Pan then delta.x • frame.right + delta.y • frame.up
      else 0
    let s' := { s with current := { s.current with
                  eye := s.current.eye + keyboardMovementVector,
                  ctr := s.current.ctr + keyboardMovementVector } }
    applyUserChange s' true

/-- CameraManipulator::setMousePosition. -/
def setMousePosition (s : Manip) (pos : Vec2) : Manip := { s with mouse := pos }

/-- CameraManipulator::mouseMove, returning the mutated state and the action. -/
def mouseMove (s : Manip) (screenDisplacement : Vec2) (inputs : Inputs) : Manip × Actions :=
  if inputs.lmb = false ∧ inputs.rmb = false ∧ inputs.mmb = false then
    (setMousePosition s screenDisplacement, Actions.NoAction)
  else
    let curAction :=
      if inputs.lmb then
        if (inputs.ctrl ∧ inputs.shift) ∨ inputs.alt then
          (if s.mode = Modes.Examine then Actions.LookAround else Actions.Orbit)
        else if inputs.shift then Actions.Dolly
        else if inputs.ctrl then Actions.Pan
        else (if s.mode = Modes.Examine then Actions.Orbit else Actions.LookAround)
      else if inputs.mmb then Actions.Pan
      else if inputs.rmb then Actions.Dolly
      else Actions.NoAction
    if curAction ≠ Actions.NoAction then (motion s screenDisplacement curAction, curAction)
    else (s, curAction)

/-- CameraManipulator::wheel. -/
def wheel (s : Manip) (value : ℝ) (inputs : Inputs) : Manip :=
  if value = 0 then s
  else
    let deltaX := value * |value| / (s.windowSize.1 : ℝ)
    if inputs.shift then
      if s.current.projectionType = ProjectionType.Orthographic then
        applyUserChange (zoomOrthographic s (1 + deltaX)) true
      else applyUserChange (setFov s (s.current.fov + value)) false
    else applyUserChange (dolly s ⟨deltaX, deltaX⟩ inputs.ctrl) true

/-- CameraManipulator::convertToPerspective. -/
def convertToPerspective (s : Manip) : Manip :=
  if s.current.projectionType = ProjectionType.Perspective then s
  else
    let distance := norm3 (s.current.eye - s.current.ctr)
    let s :=
      if 0 < distance ∧ 0 < s.current.orthMag.y then
        { s with current := { s.current with fov := (
            clampR (degrees (2 * Real.arctan (s.current.orthMag.y / distance)))
              CameraConstants.MIN_FOV CameraConstants.MAX_FOV) } }
      else s
    { s with current := { s.current with projectionType := ProjectionType.Perspective } }

/-- CameraManipulator::convertToOrthographic. -/
def convertToOrthographic (s : Manip) : Manip :=
  if s.current.projectionType = ProjectionType.Orthographic then s
  else
    let distance := norm3 (s.current.eye - s.current.ctr)
    let s :=
      if 0 < distance then
        let halfFovRad := radians (s.current.fov * 0.5)
        let ymag := distance * Real.tan halfFovRad
        { s with current := { s.current with orthMag := ⟨ymag * getAspectRatio s, ymag⟩ } }
      else s
    { s with current := { s.current with projectionType := ProjectionType.Orthographic } }

/-- CameraManipulator::fit; `now` is the getSystemTime() value consumed if an
animated setLookat starts. -/
def fit (s : Manip) (boxMin boxMax : Vec3) (instantFit tightFit : Bool) (aspect : ℝ)
    (now : ℝ) : Manip :=
  let boxHalfSize := (0.5 : ℝ) • (boxMax - boxMin)
  let boxCenter := (0.5 : ℝ) • (boxMin + boxMax)
  let yfov := Real.tan (radians (s.current.fov * 0.5))
  let xfov := yfov * aspect
  let idealDistance :=
    if tightFit then
      (List.range 8).foldl
        (fun acc i =>
          let vct : Vec3 :=
            ⟨if i % 2 = 1 then boxHalfSize.x else -boxHalfSize.x,
             if i / 2 % 2 = 1 then boxHalfSize.y else -boxHalfSize.y,
             if i / 4 % 2 = 1 then boxHalfSize.z else -boxHalfSize.z⟩
          let vct := lookAtRot s.current.eye boxCenter s.current.up vct
          if vct.z < 0 then
            max (|vct.x| / xfov + |vct.z|) (max (|vct.y| / yfov + |vct.z|) acc)
          else acc)
        0
    else
      let radius := norm3 boxHalfSize
      max (radius / xfov) (radius / yfov)
  let newEye := boxCenter - idealDistance • normalize3 (boxCenter - s.current.eye)
  setLookat s newEye boxCenter s.current.up instantFit now

/-- Camera::getString, modelled at the level of the sequence of numeric
fields the fmt format string emits (the brace/comma literals are fixed
separators).  projectionType is emitted as its integer value. -/
def getStringVals (c : Camera) : List ℝ :=
  [c.eye.x, c.eye.y, c.eye.z, c.ctr.x, c.ctr.y, c.ctr.z, c.up.x, c.up.y, c.up.z,
   c.fov, c.nearFar.x, c.nearFar.y, c.orthMag.x, c.orthMag.y,
   match c.projectionType with
   | ProjectionType.Perspective => 0
   | ProjectionType.Orthographic => 1]

/-- C++ static_cast<int> on a real value: truncation toward zero. -/
def truncToInt (x : ℝ) : ℤ := if 0 ≤ x then ⌊x⌋ else ⌈x⌉

/-- C++ static_cast<ProjectionType>(int): 0 is Perspective, any other stored
value reads back as Orthographic (only 0 and 1 are produced by getString). -/
def projTypeOfInt (n : ℤ) : ProjectionType :=
  if n = 0 then ProjectionType.Perspective else ProjectionType.Orthographic

/-- Camera::setFromString, modelled at the level of the numeric fields
present in the input text: `vals` lists the numbers the sscanf call matches,
in order; sscanf matches at most the 15 conversion specifiers, so the sscanf
result is min(vals.length, 15).  The assignment thresholds (9/10/12/14/15)
are the source's. -/
def setFromVals (c : Camera) (vals : List ℝ) : Bool × Camera :=
  let result := min vals.length 15
  let val : ℕ → ℝ := fun i => vals.getD i 0
  if 9 ≤ result then
    (true,
      { c with
        eye := ⟨val 0, val 1, val 2⟩
        ctr := ⟨val 3, val 4, val 5⟩
        up := ⟨val 6, val 7, val 8⟩
        fov := if 10 ≤ result then val 9 else c.fov
        nearFar := if 12 ≤ result then ⟨val 10, val 11⟩ else c.nearFar
        orthMag := if 14 ≤ result then ⟨val 12, val 13⟩ else c.orthMag
        projectionType :=
          if 15 ≤ result then projTypeOfInt (truncToInt (val 14)) else c.projectionType })
  else (false, c)

/-- Input-classification table as written in the specification (section 4.2):
left-button chords in priority order, middle always Pan, right always Dolly,
nothing pressed is NoAction.  Used to state the refinement claim about
mouseMove. -/
def mouseActionSpec (mode : Modes) (i : Inputs) : Actions :=
  if i.lmb then
    if (i.ctrl ∧ i.shift) ∨ i.alt then
      (if mode = Modes.Examine then Actions.LookAround else Actions.Orbit)
    else if i.shift then Actions.Dolly
    else if i.ctrl then Actions.Pan
    else (if mode = Modes.Examine then Actions.Orbit else Actions.LookAround)
  else if i.mmb then Actions.Pan
  else if i.rmb then Actions.Dolly
  else Actions.NoAction

/-- Example pose for concrete instantiations: eye on the x-axis looking at the
origin. -/
def camA : Camera := { eye := ⟨3, 0, 0⟩, ctr := ⟨0, 0, 0⟩, up := ⟨0, 1, 0⟩ }

/-- Manipulator in the constructor state except for the pose camA. -/
def manipA : Manip := { initManip with current := camA }

/-- Degenerate camera: eye = ctr, so the minimum-distance validation fails. -/
def camBad : Camera := { eye := ⟨0, 0, 0⟩, ctr := ⟨0, 0, 0⟩ }

/-- Matrix whose derived camera is degenerate: the zero third basis column
makes ctr = eye. -/
def matBad : Mat4 := ⟨⟨1, 0, 0⟩, ⟨0, 1, 0⟩, ⟨0, 0, 0⟩, ⟨0, 0, 0⟩⟩

/-- Identity rotation with translation (5, 5, 5). -/
def matId5 : Mat4 := ⟨⟨1, 0, 0⟩, ⟨0, 1, 0⟩, ⟨0, 0, 1⟩, ⟨5, 5, 5⟩⟩

/-- Snapshot pose of the concrete animation scenario. -/
def camSnapA : Camera := { eye := ⟨3, 0, 0⟩, ctr := ⟨0, 0, 0⟩ }

/-- Goal pose of the concrete animation scenario. -/
def camGoalB : Camera := { eye := ⟨2, 0, 0⟩, ctr := ⟨1, 0, 0⟩ }

/-- Manipulator mid-animation: snapshot camSnapA, goal camGoalB, animation
started at time 1000 ms with duration 1 s. -/
def manipAnim : Manip :=
  { current := camSnapA, goal := camGoalB, snapshot := some camSnapA,
    startTime := 1000, duration := 1, isAnimating := true }

/-- Pose at exactly the minimum eye-center distance. -/
def manipClose : Manip := { current := { eye := ⟨1 / 1000000, 0, 0⟩, ctr := ⟨0, 0, 0⟩ } }

/-- Perspective pose with fov 90 degrees at distance 1/1000 from the center. -/
def manipNarrow : Manip :=
  { current := { eye := ⟨0, 0, 1 / 1000⟩, ctr := ⟨0, 0, 0⟩, fov := 90 } }

/-- Pose at the origin looking along +x with fov 90 degrees, used by the fit
claims. -/
def manipFit : Manip := { current := { eye := ⟨0, 0, 0⟩, ctr := ⟨1, 0, 0⟩, fov := 90 } }

end nvutils

end

/-
Lemma layer.  Component lemmas for the vector instances, basic facts about
glm norms, and the claims C1..C10.
-/

noncomputable section

namespace nvutils

@[simp] lemma Vec3.add_x (a b : Vec3) : (a + b).x = a.x + b.x := rfl
@[simp] lemma Vec3.add_y (a b : Vec3) : (a + b).y = a.y + b.y := rfl
@[simp] lemma Vec3.add_z (a b : Vec3) : (a + b).z = a.z + b.z := rfl
@[simp] lemma Vec3.sub_x (a b : Vec3) : (a - b).x = a.x - b.x := rfl
@[simp] lemma Vec3.sub_y (a b : Vec3) : (a - b).y = a.y - b.y := rfl
@[simp] lemma Vec3.sub_z (a b : Vec3) : (a - b).z = a.z - b.z := rfl
@[simp] lemma Vec3.neg_x (a : Vec3) : (-a).x = -a.x := rfl
@[simp] lemma Vec3.neg_y (a : Vec3) : (-a).y = -a.y := rfl
@[simp] lemma Vec3.neg_z (a : Vec3) : (-a).z = -a.z := rfl
@[simp] lemma Vec3.smul_x (t : ℝ) (a : Vec3) : (t • a).x = t * a.x := rfl
@[simp] lemma Vec3.smul_y (t : ℝ) (a : Vec3) : (t • a).y = t * a.y := rfl
@[simp] lemma Vec3.smul_z (t : ℝ) (a : Vec3) : (t • a).z = t * a.z := rfl
@[simp] lemma Vec3.zero_x : (0 : Vec3).x = 0 := rfl
@[simp] lemma Vec3.zero_y : (0 : Vec3).y = 0 := rfl
@[simp] lemma Vec3.zero_z : (0 : Vec3).z = 0 := rfl

@[simp] lemma Vec2.add2_x (a b : Vec2) : (a + b).x = a.x + b.x := rfl
@[simp] lemma Vec2.add2_y (a b : Vec2) : (a + b).y = a.y + b.y := rfl
@[simp] lemma Vec2.sub2_x (a b : Vec2) : (a - b).x = a.x - b.x := rfl
@[simp] lemma Vec2.sub2_y (a b : Vec2) : (a - b).y = a.y - b.y := rfl
@[simp] lemma Vec2.smul2_x (t : ℝ) (a : Vec2) : (t • a).x = t * a.x := rfl
@[simp] lemma Vec2.smul2_y (t : ℝ) (a : Vec2) : (t • a).y = t * a.y := rfl
@[simp] lemma Vec2.zero2_x : (0 : Vec2).x = 0 := rfl
@[simp] lemma Vec2.zero2_y : (0 : Vec2).y = 0 := rfl

lemma dot3_self_nonneg (v : Vec3) : 0 ≤ dot3 v v := by
  simp only [dot3]
  nlinarith [sq_nonneg v.x, sq_nonneg v.y, sq_nonneg v.z]

lemma dot3_self_eq_zero_iff (v : Vec3) : dot3 v v = 0 ↔ v = 0 := by
  constructor
  · intro h
    simp only [dot3] at h
    have hx : v.x = 0 := by nlinarith [sq_nonneg v.x, sq_nonneg v.y, sq_nonneg v.z]
    have hy : v.y = 0 := by nlinarith [sq_nonneg v.x, sq_nonneg v.y, sq_nonneg v.z]
    have hz : v.z = 0 := by nlinarith [sq_nonneg v.x, sq_nonneg v.y, sq_nonneg v.z]
    ext <;> simp [hx, hy, hz]
  · rintro rfl
    simp [dot3]

lemma norm3_nonneg (v : Vec3) : 0 ≤ norm3 v := Real.sqrt_nonneg _

lemma dot3_self_eq_sq_norm (v : Vec3) : dot3 v v = norm3 v ^ 2 :=
  (Real.sq_sqrt (dot3_self_nonneg v)).symm

lemma norm3_eq_zero_iff (v : Vec3) : norm3 v = 0 ↔ v = 0 := by
  rw [norm3, Real.sqrt_eq_zero (dot3_self_nonneg v), dot3_self_eq_zero_iff]

lemma norm3_pos_of_ne_zero {v : Vec3} (h : v ≠ 0) : 0 < norm3 v :=
  lt_of_le_of_ne (norm3_nonneg v) fun h0 => h ((norm3_eq_zero_iff v).mp h0.symm)

lemma norm3_neg (v : Vec3) : norm3 (-v) = norm3 v := by
  simp only [norm3, dot3, Vec3.neg_x, Vec3.neg_y, Vec3.neg_z]
  ring_nf

lemma norm3_sub_comm (a b : Vec3) : norm3 (a - b) = norm3 (b - a) := by
  have h : a - b = -(b - a) := by ext <;> simp
  rw [h, norm3_neg]

lemma norm3_smul (t : ℝ) (v : Vec3) : norm3 (t • v) = |t| * norm3 v := by
  have h : dot3 (t • v) (t • v) = t ^ 2 * dot3 v v := by
    simp only [dot3, Vec3.smul_x, Vec3.smul_y, Vec3.smul_z]
    ring
  rw [norm3, h, Real.sqrt_mul (sq_nonneg t), Real.sqrt_sq_eq_abs, norm3]

lemma norm3_normalize {v : Vec3} (h : v ≠ 0) : norm3 (normalize3 v) = 1 := by
  have hpos := norm3_pos_of_ne_zero h
  rw [normalize3, norm3_smul, abs_of_pos (inv_pos.mpr hpos), inv_mul_cancel₀ (ne_of_gt hpos)]

lemma dot3_normalize_self {v : Vec3} (h : v ≠ 0) :
    dot3 (normalize3 v) (normalize3 v) = 1 := by
  rw [dot3_self_eq_sq_norm, norm3_normalize h, one_pow]

lemma normalize3_ne_zero {v : Vec3} (h : v ≠ 0) : normalize3 v ≠ 0 := by
  intro h0
  have := norm3_normalize h
  rw [h0, (norm3_eq_zero_iff 0).mpr rfl] at this
  exact zero_ne_one this

/-- glmRotate written as the Rodrigues combination of the input, the cross
product with the unit axis, and the axis itself. -/
lemma glmRotate_eq_rodrigues (angle : ℝ) (axisIn v : Vec3) :
    glmRotate angle axisIn v =
      Real.cos angle • v + Real.sin angle • cross3 (normalize3 axisIn) v
        + ((1 - Real.cos angle) * dot3 (normalize3 axisIn) v) • normalize3 axisIn := by
  ext <;>
    simp only [glmRotate, cross3, dot3, Vec3.add_x, Vec3.add_y, Vec3.add_z,
      Vec3.smul_x, Vec3.smul_y, Vec3.smul_z] <;>
    ring

/-- The squared norm of a Rodrigues rotation of v around a unit axis is the
squared norm of v. -/
lemma dot3_rodrigues (u v : Vec3) (c s : ℝ) (hu : dot3 u u = 1)
    (hcs : c ^ 2 + s ^ 2 = 1) :
    dot3 (c • v + s • cross3 u v + ((1 - c) * dot3 u v) • u)
      (c • v + s • cross3 u v + ((1 - c) * dot3 u v) • u) = dot3 v v := by
  obtain ⟨a, b, d⟩ := u
  obtain ⟨x, y, z⟩ := v
  simp only [dot3, cross3, Vec3.add_x, Vec3.add_y, Vec3.add_z, Vec3.smul_x, Vec3.smul_y,
    Vec3.smul_z] at hu ⊢
  linear_combination ((x ^ 2 + y ^ 2 + z ^ 2) - (a * x + b * y + d * z) ^ 2) * hcs +
    (s ^ 2 * (x ^ 2 + y ^ 2 + z ^ 2) + (1 - c) ^ 2 * (a * x + b * y + d * z) ^ 2) * hu

/-- glm rotation about a nonzero axis preserves the glm vector norm. -/
lemma norm3_glmRotate (angle : ℝ) {axisIn : Vec3} (v : Vec3) (h : axisIn ≠ 0) :
    norm3 (glmRotate angle axisIn v) = norm3 v := by
  rw [glmRotate_eq_rodrigues, norm3, norm3,
    dot3_rodrigues _ _ _ _ (dot3_normalize_self h) (Real.cos_sq_add_sin_sq angle)]

end nvutils

end

namespace nvutils

lemma ne_zero_of_norm3_not_lt_eps {v : Vec3}
    (h : ¬norm3 v < CameraConstants.EPSILON) : v ≠ 0 := by
  rintro rfl
  exact h (by rw [(norm3_eq_zero_iff 0).mpr rfl]; norm_num [CameraConstants.EPSILON])

lemma ne_zero_of_dot3_not_lt_eps {v : Vec3}
    (h : ¬dot3 v v < CameraConstants.EPSILON) : v ≠ 0 := by
  rintro rfl
  exact h (by simp [dot3, CameraConstants.EPSILON])

lemma dist3_smul_add {r : ℝ} {u : Vec3} (c : Vec3) (hr : 0 ≤ r) (hu : norm3 u = 1) :
    dist3 (r • u + c) c = r := by
  have h : c - (r • u + c) = -(r • u) := by ext <;> simp
  rw [dist3, h, norm3_neg, norm3_smul, hu, mul_one, abs_of_nonneg hr]

lemma dist3_add_smul {r : ℝ} {u : Vec3} (c : Vec3) (hr : 0 ≤ r) (hu : norm3 u = 1) :
    dist3 c (r • u + c) = r := by
  have h : (r • u + c) - c = r • u := by ext <;> simp
  rw [dist3, h, norm3_smul, hu, mul_one, abs_of_nonneg hr]

/-- Both candidate unit vectors inside orbit (the Y-rotated sight vector and
its X-rotated image) have glm norm one. -/
lemma orbit_unit_norms (up ce : Vec3) (a1 a2 : ℝ) (hup : up ≠ 0) (hce : ce ≠ 0)
    (hax : cross3 up (glmRotate a1 up (normalize3 ce)) ≠ 0) :
    norm3 (glmRotate a2 (normalize3 (cross3 up (glmRotate a1 up (normalize3 ce))))
        (glmRotate a1 up (normalize3 ce))) = 1
      ∧ norm3 (glmRotate a1 up (normalize3 ce)) = 1 := by
  have h1 : norm3 (glmRotate a1 up (normalize3 ce)) = 1 := by
    rw [norm3_glmRotate _ _ hup, norm3_normalize hce]
  exact ⟨by rw [norm3_glmRotate _ _ (normalize3_ne_zero hax), h1], h1⟩

set_option maxHeartbeats 1000000 in
/-- C7: for every pose with a non-degenerate up vector, orbit preserves the
eye-center distance exactly in real arithmetic: on every no-op guard path the
state is unchanged, and on the main path the rotated pivot-to-subject vector
is rescaled to the original radius, so distance(eye, ctr) after the call
equals distance(eye, ctr) before the call, for both orientations of the
invert flag. -/
theorem orbit_preserves_distance (s : Manip) (displacement : Vec2) (invert : Bool)
    (hup : s.current.up ≠ 0) :
    dist3 (orbit s displacement invert).current.eye (orbit s displacement invert).current.ctr
      = dist3 s.current.eye s.current.ctr := by
  by_cases h0 : displacement = (0 : Vec2)
  · simp [orbit, h0]
  cases invert with
  | false =>
    simp only [orbit, if_neg h0]
    simp only [Bool.false_eq_true, if_false]
    split_ifs with h1 h2 h3
    · rfl
    · rfl
    · dsimp only
      have hce := ne_zero_of_norm3_not_lt_eps h1
      have hax := ne_zero_of_dot3_not_lt_eps h2
      obtain ⟨hu2, hu1⟩ := orbit_unit_norms s.current.up (s.current.eye - s.current.ctr)
        (-((2 * Real.pi) • displacement).x) (-((2 * Real.pi) • displacement).y) hup hce hax
      rw [dist3_smul_add _ (norm3_nonneg _) hu2, dist3, norm3_sub_comm]
    · dsimp only
      have hce := ne_zero_of_norm3_not_lt_eps h1
      have hax := ne_zero_of_dot3_not_lt_eps h2
      obtain ⟨hu2, hu1⟩ := orbit_unit_norms s.current.up (s.current.eye - s.current.ctr)
        (-((2 * Real.pi) • displacement).x) (-((2 * Real.pi) • displacement).y) hup hce hax
      rw [dist3_smul_add _ (norm3_nonneg _) hu1, dist3, norm3_sub_comm]
  | true =>
    simp only [orbit, if_neg h0]
    simp only [Bool.true_eq_false, if_true]
    split_ifs with h1 h2 h3
    · rfl
    · rfl
    · dsimp only
      have hce := ne_zero_of_norm3_not_lt_eps h1
      have hax := ne_zero_of_dot3_not_lt_eps h2
      obtain ⟨hu2, hu1⟩ := orbit_unit_norms s.current.up (s.current.ctr - s.current.eye)
        (-((2 * Real.pi) • displacement).x) (-((2 * Real.pi) • displacement).y) hup hce hax
      rw [dist3_add_smul _ (norm3_nonneg _) hu2, dist3]
    · dsimp only
      have hce := ne_zero_of_norm3_not_lt_eps h1
      have hax := ne_zero_of_dot3_not_lt_eps h2
      obtain ⟨hu2, hu1⟩ := orbit_unit_norms s.current.up (s.current.ctr - s.current.eye)
        (-((2 * Real.pi) • displacement).x) (-((2 * Real.pi) • displacement).y) hup hce hax
      rw [dist3_add_smul _ (norm3_nonneg _) hu1, dist3]

/-- Witness for C7 at a concrete pose and displacement. -/
theorem orbit_preserves_distance_witness :
    dist3 (orbit manipA ⟨1 / 4, 0⟩ false).current.eye
        (orbit manipA ⟨1 / 4, 0⟩ false).current.ctr
      = dist3 manipA.current.eye manipA.current.ctr :=
  orbit_preserves_distance manipA ⟨1 / 4, 0⟩ false
    (by intro h; exact one_ne_zero (congrArg Vec3.y h))

end nvutils

namespace nvutils

lemma norm3_eval (a b c y : ℝ) (hy : 0 ≤ y) (h : a * a + b * b + c * c = y * y) :
    norm3 ⟨a, b, c⟩ = y := by
  simp only [norm3, dot3]
  rw [h]
  exact Real.sqrt_mul_self hy

/-- C4 test. -/
theorem mouseMove_classifies_actions (s : Manip) (pos : Vec2) (i : Inputs) :
    (mouseMove s pos i).2 = mouseActionSpec s.mode i
      ∧ (i.lmb = false ∧ i.mmb = false ∧ i.rmb = false →
          mouseMove s pos i = ({ s with mouse := pos }, Actions.NoAction)) := by
  obtain ⟨l, m, r, sh, c, a⟩ := i
  constructor
  · cases hm : s.mode <;>
      cases l <;> cases m <;> cases r <;> cases sh <;> cases c <;> cases a <;>
        simp [mouseMove, mouseActionSpec, setMousePosition, hm]
  · rintro ⟨rfl, rfl, rfl⟩
    simp [mouseMove, setMousePosition]

/-- C4 witness. -/
theorem mouseMove_classifies_actions_witness :
    mouseMove manipA ⟨5, 6⟩ {} = ({ manipA with mouse := ⟨5, 6⟩ }, Actions.NoAction) :=
  (mouseMove_classifies_actions manipA ⟨5, 6⟩ {}).2 ⟨rfl, rfl, rfl⟩

/-- C5 counterexample. -/
theorem keyMotion_zero_delta_keeps_animation_cex :
    manipAnim.isAnimating = true
      ∧ (keyMotion manipAnim 0 Actions.Dolly).isAnimating = true := by
  constructor
  · rfl
  · simp [keyMotion, manipAnim]

/-- C5 amended. -/
theorem user_motion_cancels_animation (s : Manip) (pos delta : Vec2)
    (act act2 : Actions) (v : ℝ) (i : Inputs) :
    (motion s pos act).isAnimating = false
      ∧ (delta ≠ 0 → (keyMotion s delta act2).isAnimating = false)
      ∧ (v ≠ 0 → (wheel s v i).isAnimating = false) := by
  refine ⟨?_, fun hd => ?_, fun hv => ?_⟩
  · cases act <;> simp [motion, applyUserChange, updateLookatMatrix]
  · simp only [keyMotion]
    rw [if_neg hd]
    simp [applyUserChange, updateLookatMatrix]
  · simp only [wheel]
    rw [if_neg hv]
    split_ifs <;> simp [applyUserChange, updateLookatMatrix]

/-- C5 witness. -/
theorem user_motion_cancels_animation_witness :
    (motion manipAnim ⟨1, 1⟩ Actions.Orbit).isAnimating = false
      ∧ (keyMotion manipAnim ⟨1, 0⟩ Actions.Dolly).isAnimating = false
      ∧ (wheel manipAnim 1 {}).isAnimating = false := by
  have h := user_motion_cancels_animation manipAnim ⟨1, 1⟩ ⟨1, 0⟩ Actions.Orbit Actions.Dolly 1 {}
  exact ⟨h.1, h.2.1 (by intro hh; exact one_ne_zero (congrArg Vec2.x hh)), h.2.2 one_ne_zero⟩

/-- C1 test. -/
theorem invalid_pose_rejected_atomically (s : Manip) (cam : Camera) (b : Bool) (now : ℝ)
    (eye center up : Vec3) (M : Mat4) (cd : ℝ) :
    (¬validateCamera cam → setCamera s cam b now = s)
      ∧ (¬validateCamera (lookatCamera s.current eye center up) →
          setLookat s eye center up b now = s)
      ∧ (¬validateCamera (matrixCamera s.current M cd) →
          setMatrix s M b cd now = s) := by
  refine ⟨fun h => ?_, fun h => ?_, fun h => ?_⟩
  · simp only [setCamera]
    rw [if_pos h]
  · simp only [setLookat]
    rw [if_pos h]
  · simp only [setMatrix]
    rw [if_pos h]

/-- C1 witness. -/
theorem invalid_pose_rejected_atomically_witness :
    setCamera initManip camBad true 0 = initManip
      ∧ setLookat initManip ⟨0, 0, 0⟩ ⟨0, 0, 0⟩ ⟨0, 1, 0⟩ true 0 = initManip
      ∧ setMatrix initManip matBad true 1 0 = initManip := by
  have h := invalid_pose_rejected_atomically initManip camBad true 0
    ⟨0, 0, 0⟩ ⟨0, 0, 0⟩ ⟨0, 1, 0⟩ matBad 1
  refine ⟨h.1 fun hv => ?_, h.2.1 fun hv => ?_, h.2.2 fun hv => ?_⟩
  · exact hv.2.1 (by simp [camBad, dist3, norm3, dot3, CameraConstants.MIN_DISTANCE])
  · exact hv.2.1 (by simp [lookatCamera, dist3, norm3, dot3, CameraConstants.MIN_DISTANCE])
  · exact hv.2.1 (by simp [matrixCamera, matBad, dist3, norm3, dot3,
      CameraConstants.MIN_DISTANCE, Vec3.ext_iff])

/-- C10 test. -/
theorem setMatrix_derived_pose (s : Manip) (M : Mat4) (cd : ℝ) (now : ℝ)
    (hval : validateCamera (matrixCamera s.current M cd)) :
    (setMatrix s M true cd now).current = matrixCamera s.current M cd
      ∧ (setMatrix s M false cd now).goal = matrixCamera s.current M cd
      ∧ (setMatrix s M false cd now).current = s.current := by
  refine ⟨?_, ?_, ?_⟩
  · simp only [setMatrix]
    rw [if_neg (not_not_intro hval)]
    simp [applyCameraInstant, updateLookatMatrix]
  · simp only [setMatrix]
    rw [if_neg (not_not_intro hval)]
    simp [startAnimationTo, findBezierPoints]
  · simp only [setMatrix]
    rw [if_neg (not_not_intro hval)]
    simp [startAnimationTo, findBezierPoints]

/-- C10 witness. -/
theorem setMatrix_derived_pose_witness :
    (setMatrix initManip matId5 true 1 0).current = matrixCamera initManip.current matId5 1 := by
  refine (setMatrix_derived_pose initManip matId5 1 0 ?_).1
  refine ⟨⟨trivial, trivial, trivial, ?_⟩, ?_, ?_⟩
  · have h1 : (matrixCamera initManip.current matId5 1).up = ⟨0, 1, 0⟩ := rfl
    rw [h1, norm3_eval 0 1 0 1 (by norm_num) (by norm_num)]
    norm_num [CameraConstants.EPSILON]
  · intro hlt
    have h2 : (matrixCamera initManip.current matId5 1).ctr
        - (matrixCamera initManip.current matId5 1).eye = ⟨0, 0, -1⟩ := by
      ext <;> simp [matrixCamera, matId5]
    rw [dist3, h2, norm3_eval 0 0 (-1) 1 (by norm_num) (by norm_num)] at hlt
    norm_num [CameraConstants.MIN_DISTANCE] at hlt
  · intro hlt
    have h3 : (matrixCamera initManip.current matId5 1).fov = 60 := rfl
    rw [h3] at hlt
    rcases hlt with h | h <;> norm_num [CameraConstants.MIN_FOV, CameraConstants.MAX_FOV] at h

end nvutils

namespace nvutils

/-- dolly never changes the projection type or the navigation mode. -/
lemma dolly_preserves_mode_proj (s : Manip) (d : Vec2) (k : Bool) :
    (dolly s d k).current.projectionType = s.current.projectionType
      ∧ (dolly s d k).mode = s.mode := by
  simp only [dolly]
  split_ifs <;> simp [zoomOrthographic]

/-- Perspective dolly is a no-op below the minimum distance. -/
lemma dolly_noop_of_min (s : Manip) (d : Vec2) (k : Bool)
    (hproj : s.current.projectionType = ProjectionType.Perspective)
    (hlen : norm3 (s.current.ctr - s.current.eye) < CameraConstants.MIN_DISTANCE) :
    dolly s d k = s := by
  simp only [dolly, hproj]
  rw [if_neg (by simp), if_pos hlen]

/-- Perspective dolly is a no-op at or above the maximum displacement. -/
lemma dolly_noop_of_max (s : Manip) (d : Vec2) (k : Bool)
    (hproj : s.current.projectionType = ProjectionType.Perspective)
    (hsc : CameraConstants.MAX_DOLLY_DISPLACEMENT
        ≤ (if |d.x| > |d.y| then d.x else -d.y)) :
    dolly s d k = s := by
  simp only [dolly, hproj]
  rw [if_neg (by simp)]
  by_cases hlen : norm3 (s.current.ctr - s.current.eye) < CameraConstants.MIN_DISTANCE
  · rw [if_pos hlen]
  · rw [if_neg hlen, if_pos hsc]

/-- Perspective dolly in Examine mode on the main path: the eye translates by
the displacement scalar times the view vector and the center stays fixed. -/
lemma dolly_perspective_examine (s : Manip) (d : Vec2) (k : Bool)
    (hproj : s.current.projectionType = ProjectionType.Perspective)
    (hmode : s.mode = Modes.Examine)
    (hlen : ¬norm3 (s.current.ctr - s.current.eye) < CameraConstants.MIN_DISTANCE)
    (hsc : (if |d.x| > |d.y| then d.x else -d.y) < CameraConstants.MAX_DOLLY_DISPLACEMENT) :
    dolly s d k = { s with current := { s.current with eye := s.current.eye
        + (if |d.x| > |d.y| then d.x else -d.y) • (s.current.ctr - s.current.eye) } } := by
  simp only [dolly, hproj]
  rw [if_neg (by simp), if_neg hlen, if_neg (not_le.mpr hsc)]
  rw [if_neg (by rw [hmode]; simp)]
  rw [if_neg (by rw [hmode]; simp)]

/-- One perspective Examine dolly keeps the eye-center distance positive. -/
lemma dolly_dist_pos_step (s : Manip) (d : Vec2) (k : Bool)
    (hproj : s.current.projectionType = ProjectionType.Perspective)
    (hmode : s.mode = Modes.Examine)
    (hpos : 0 < dist3 s.current.eye s.current.ctr) :
    0 < dist3 (dolly s d k).current.eye (dolly s d k).current.ctr := by
  by_cases hlen : norm3 (s.current.ctr - s.current.eye) < CameraConstants.MIN_DISTANCE
  · rw [dolly_noop_of_min s d k hproj hlen]; exact hpos
  by_cases hsc : CameraConstants.MAX_DOLLY_DISPLACEMENT
      ≤ (if |d.x| > |d.y| then d.x else -d.y)
  · rw [dolly_noop_of_max s d k hproj hsc]; exact hpos
  · rw [dolly_perspective_examine s d k hproj hmode hlen (not_le.mp hsc)]
    set sc := if |d.x| > |d.y| then d.x else -d.y with hscdef
    have hv : s.current.ctr - (s.current.eye + sc • (s.current.ctr - s.current.eye))
        = (1 - sc) • (s.current.ctr - s.current.eye) := by
      ext <;> simp <;> ring
    have hsc1 : sc < 1 :=
      lt_trans (not_le.mp hsc) (by norm_num [CameraConstants.MAX_DOLLY_DISPLACEMENT])
    calc 0 < (1 - sc) * norm3 (s.current.ctr - s.current.eye) := by
          apply mul_pos (by linarith)
          exact lt_of_lt_of_le (by norm_num [CameraConstants.MIN_DISTANCE]) (not_lt.mp hlen)
      _ = dist3 (s.current.eye + sc • (s.current.ctr - s.current.eye)) s.current.ctr := by
          rw [dist3, hv, norm3_smul, abs_of_pos (by linarith)]
      _ = _ := rfl

/-- C3 amended test. -/
theorem dolly_never_crosses_center (s : Manip) (displacement : Vec2) (kcf : Bool) (sc : ℝ)
    (hsceq : sc = if |displacement.x| > |displacement.y| then displacement.x else -displacement.y)
    (hproj : s.current.projectionType = ProjectionType.Perspective)
    (hmode : s.mode = Modes.Examine) :
    (norm3 (s.current.ctr - s.current.eye) < CameraConstants.MIN_DISTANCE →
        dolly s displacement kcf = s)
      ∧ (CameraConstants.MAX_DOLLY_DISPLACEMENT ≤ sc → dolly s displacement kcf = s)
      ∧ (¬norm3 (s.current.ctr - s.current.eye) < CameraConstants.MIN_DISTANCE →
          sc < CameraConstants.MAX_DOLLY_DISPLACEMENT →
            (dolly s displacement kcf).current.ctr = s.current.ctr
              ∧ (dolly s displacement kcf).current.eye
                  = s.current.eye + sc • (s.current.ctr - s.current.eye)
              ∧ dist3 (dolly s displacement kcf).current.eye
                    (dolly s displacement kcf).current.ctr
                  = (1 - sc) * norm3 (s.current.ctr - s.current.eye))
      ∧ (0 < dist3 s.current.eye s.current.ctr →
          ∀ L : List (Vec2 × Bool),
            0 < dist3 ((L.foldl (fun st p => dolly st p.1 p.2) s).current.eye)
                ((L.foldl (fun st p => dolly st p.1 p.2) s).current.ctr)) := by
  subst hsceq
  refine ⟨fun hlen => dolly_noop_of_min s displacement kcf hproj hlen,
    fun hsc => dolly_noop_of_max s displacement kcf hproj hsc,
    fun hlen hsc => ?_, fun hpos L => ?_⟩
  · rw [dolly_perspective_examine s displacement kcf hproj hmode hlen hsc]
    set sc := if |displacement.x| > |displacement.y| then displacement.x else -displacement.y
      with hscdef
    refine ⟨rfl, rfl, ?_⟩
    have hv : s.current.ctr - (s.current.eye + sc • (s.current.ctr - s.current.eye))
        = (1 - sc) • (s.current.ctr - s.current.eye) := by
      ext <;> simp <;> ring
    have hsc1 : sc < 1 :=
      lt_trans hsc (by norm_num [CameraConstants.MAX_DOLLY_DISPLACEMENT])
    show dist3 (s.current.eye + sc • (s.current.ctr - s.current.eye)) s.current.ctr = _
    rw [dist3, hv, norm3_smul, abs_of_pos (by linarith)]
  · induction L generalizing s with
    | nil => exact hpos
    | cons hd tl ih =>
      have hstep := dolly_dist_pos_step s hd.1 hd.2 hproj hmode hpos
      have hpp := dolly_preserves_mode_proj s hd.1 hd.2
      exact ih (dolly s hd.1 hd.2) (hpp.1.trans hproj) (hpp.2.trans hmode) hstep

/-- C3 witness. -/
theorem dolly_never_crosses_center_witness :
    (dolly manipA ⟨1 / 2, 0⟩ false).current.eye
        = manipA.current.eye + (1 / 2 : ℝ) • (manipA.current.ctr - manipA.current.eye) := by
  have h := dolly_never_crosses_center manipA ⟨1 / 2, 0⟩ false (1 / 2)
    (by norm_num) rfl rfl
  refine (h.2.2.1 ?_ (by norm_num [CameraConstants.MAX_DOLLY_DISPLACEMENT])).2.1
  have hv : manipA.current.ctr - manipA.current.eye = ⟨-3, 0, 0⟩ := by
    ext <;> simp [manipA, camA]
  rw [hv, norm3_eval (-3) 0 0 3 (by norm_num) (by norm_num)]
  norm_num [CameraConstants.MIN_DISTANCE]

/-- C3 counterexample. -/
theorem dolly_below_min_distance_cex :
    dist3 (dolly manipClose ⟨9 / 10, 0⟩ false).current.eye
        (dolly manipClose ⟨9 / 10, 0⟩ false).current.ctr
      < CameraConstants.MIN_DISTANCE := by
  have hv : manipClose.current.ctr - manipClose.current.eye = ⟨-(1 / 1000000), 0, 0⟩ := by
    ext <;> simp [manipClose]
  have hlen : ¬norm3 (manipClose.current.ctr - manipClose.current.eye)
      < CameraConstants.MIN_DISTANCE := by
    rw [hv, norm3_eval (-(1 / 1000000)) 0 0 (1 / 1000000) (by norm_num) (by norm_num)]
    norm_num [CameraConstants.MIN_DISTANCE]
  have hsc : (if |((⟨9 / 10, 0⟩ : Vec2)).x| > |((⟨9 / 10, 0⟩ : Vec2)).y|
      then ((⟨9 / 10, 0⟩ : Vec2)).x else -((⟨9 / 10, 0⟩ : Vec2)).y)
        < CameraConstants.MAX_DOLLY_DISPLACEMENT := by
    norm_num [CameraConstants.MAX_DOLLY_DISPLACEMENT]
  rw [dolly_perspective_examine manipClose ⟨9 / 10, 0⟩ false rfl rfl hlen hsc]
  have hsceval : (if |((⟨9 / 10, 0⟩ : Vec2)).x| > |((⟨9 / 10, 0⟩ : Vec2)).y|
      then ((⟨9 / 10, 0⟩ : Vec2)).x else -((⟨9 / 10, 0⟩ : Vec2)).y) = (9 / 10 : ℝ) := by
    norm_num
  have hv2 : manipClose.current.ctr - (manipClose.current.eye
      + (if |((⟨9 / 10, 0⟩ : Vec2)).x| > |((⟨9 / 10, 0⟩ : Vec2)).y|
          then ((⟨9 / 10, 0⟩ : Vec2)).x else -((⟨9 / 10, 0⟩ : Vec2)).y)
        • (manipClose.current.ctr - manipClose.current.eye)) = ⟨-(1 / 10000000), 0, 0⟩ := by
    rw [hsceval]
    ext <;> norm_num [manipClose]
  show dist3 _ _ < CameraConstants.MIN_DISTANCE
  rw [dist3]
  dsimp only
  rw [hv2, norm3_eval (-(1 / 10000000)) 0 0 (1 / 10000000) (by norm_num) (by norm_num)]
  norm_num [CameraConstants.MIN_DISTANCE]

end nvutils

namespace nvutils

/-- C9 amended: each conversion is a no-op on the whole state when already in
the target projection; convertToPerspective recomputes fov = 2 atan(ymag /
distance) clamped to [MIN_FOV, MAX_FOV]; convertToOrthographic recomputes
ymag = distance tan(fov / 2) and xmag = ymag times the aspect ratio with no
minimum-size clamping. -/
theorem projection_conversion (s : Manip) :
    (s.current.projectionType = ProjectionType.Perspective → convertToPerspective s = s)
      ∧ (s.current.projectionType = ProjectionType.Orthographic → convertToOrthographic s = s)
      ∧ (s.current.projectionType = ProjectionType.Orthographic →
          0 < norm3 (s.current.eye - s.current.ctr) → 0 < s.current.orthMag.y →
            (convertToPerspective s).current = { s.current with
              fov := clampR (degrees (2 * Real.arctan
                  (s.current.orthMag.y / norm3 (s.current.eye - s.current.ctr))))
                CameraConstants.MIN_FOV CameraConstants.MAX_FOV,
              projectionType := ProjectionType.Perspective })
      ∧ (s.current.projectionType = ProjectionType.Perspective →
          0 < norm3 (s.current.eye - s.current.ctr) →
            (convertToOrthographic s).current = { s.current with
              orthMag := ⟨norm3 (s.current.eye - s.current.ctr)
                  * Real.tan (radians (s.current.fov * 0.5)) * getAspectRatio s,
                norm3 (s.current.eye - s.current.ctr)
                  * Real.tan (radians (s.current.fov * 0.5))⟩,
              projectionType := ProjectionType.Orthographic }) := by
  refine ⟨fun h => ?_, fun h => ?_, fun h hd hy => ?_, fun h hd => ?_⟩
  · simp only [convertToPerspective]
    rw [if_pos h]
  · simp only [convertToOrthographic]
    rw [if_pos h]
  · simp only [convertToPerspective]
    rw [if_neg (by rw [h]; simp), if_pos ⟨hd, hy⟩]
  · simp only [convertToOrthographic]
    rw [if_neg (by rw [h]; simp), if_pos hd]

/-- Witness for the C9 amended theorem at a concrete orthographic and a
concrete perspective state. -/
theorem projection_conversion_witness :
    convertToPerspective manipA = manipA
      ∧ (convertToOrthographic manipNarrow).current = { manipNarrow.current with
          orthMag := ⟨norm3 (manipNarrow.current.eye - manipNarrow.current.ctr)
              * Real.tan (radians (manipNarrow.current.fov * 0.5)) * getAspectRatio manipNarrow,
            norm3 (manipNarrow.current.eye - manipNarrow.current.ctr)
              * Real.tan (radians (manipNarrow.current.fov * 0.5))⟩,
          projectionType := ProjectionType.Orthographic } := by
  constructor
  · exact (projection_conversion manipA).1 rfl
  · refine (projection_conversion manipNarrow).2.2.2 rfl ?_
    have hv : manipNarrow.current.eye - manipNarrow.current.ctr = ⟨0, 0, 1 / 1000⟩ := by
      ext <;> simp [manipNarrow]
    rw [hv, norm3_eval 0 0 (1 / 1000) (1 / 1000) (by norm_num) (by norm_num)]
    norm_num

/-- C9 counterexample: converting a perspective camera with fov 90 degrees at
distance 1/1000 yields an orthographic half-height of 1/1000, strictly below
MIN_ORTHOGRAPHIC_SIZE, so the conversion does not clamp the magnitudes to the
minimum orthographic size. -/
theorem convertToOrthographic_below_min_size_cex :
    (convertToOrthographic manipNarrow).current.orthMag.y = 1 / 1000
      ∧ (1 / 1000 : ℝ) < CameraConstants.MIN_ORTHOGRAPHIC_SIZE := by
  constructor
  · have hv : manipNarrow.current.eye - manipNarrow.current.ctr = ⟨0, 0, 1 / 1000⟩ := by
      ext <;> simp [manipNarrow]
    have hn : norm3 (manipNarrow.current.eye - manipNarrow.current.ctr) = 1 / 1000 := by
      rw [hv, norm3_eval 0 0 (1 / 1000) (1 / 1000) (by norm_num) (by norm_num)]
    have hfov : manipNarrow.current.fov = 90 := rfl
    have htan : Real.tan (radians (manipNarrow.current.fov * 0.5)) = 1 := by
      rw [hfov, radians]
      rw [show (90 : ℝ) * 0.5 * (Real.pi / 180) = Real.pi / 4 by ring]
      exact Real.tan_pi_div_four
    simp only [convertToOrthographic]
    rw [if_neg (by simp [manipNarrow]), if_pos (by rw [hn]; norm_num)]
    simp only [hn, htan]
    norm_num
  · norm_num [CameraConstants.MIN_ORTHOGRAPHIC_SIZE]

end nvutils

namespace nvutils

/-- C8 test. -/
theorem camera_string_roundtrip (c0 c : Camera) (vals : List ℝ) :
    setFromVals c0 (getStringVals c) = (true, c)
      ∧ (vals.length < 9 → setFromVals c0 vals = (false, c0))
      ∧ (9 ≤ vals.length →
          (setFromVals c0 vals).1 = true
            ∧ (setFromVals c0 vals).2.eye = ⟨vals.getD 0 0, vals.getD 1 0, vals.getD 2 0⟩
            ∧ (setFromVals c0 vals).2.ctr = ⟨vals.getD 3 0, vals.getD 4 0, vals.getD 5 0⟩
            ∧ (setFromVals c0 vals).2.up = ⟨vals.getD 6 0, vals.getD 7 0, vals.getD 8 0⟩
            ∧ (setFromVals c0 vals).2.fov
                = (if 10 ≤ vals.length then vals.getD 9 0 else c0.fov)
            ∧ (setFromVals c0 vals).2.nearFar
                = (if 12 ≤ vals.length then (⟨vals.getD 10 0, vals.getD 11 0⟩ : Vec2)
                   else c0.nearFar)
            ∧ (setFromVals c0 vals).2.orthMag
                = (if 14 ≤ vals.length then (⟨vals.getD 12 0, vals.getD 13 0⟩ : Vec2)
                   else c0.orthMag)
            ∧ (setFromVals c0 vals).2.projectionType
                = (if 15 ≤ vals.length then projTypeOfInt (truncToInt (vals.getD 14 0))
                   else c0.projectionType)) := by
  refine ⟨?_, fun h => ?_, fun h => ?_⟩
  · cases hp : c.projectionType <;>
      simp [setFromVals, getStringVals, projTypeOfInt, truncToInt, hp] <;>
        ext <;> simp [hp]
  · simp only [setFromVals]
    rw [if_neg (by omega : ¬9 ≤ min vals.length 15)]
  · have h9 : 9 ≤ min vals.length 15 := by omega
    simp only [setFromVals]
    rw [if_pos h9]
    refine ⟨rfl, rfl, rfl, rfl, ?_, ?_, ?_, ?_⟩
    · exact if_congr (by omega) rfl rfl
    · exact if_congr (by omega) rfl rfl
    · exact if_congr (by omega) rfl rfl
    · exact if_congr (by omega) rfl rfl

/-- C8 witness. -/
theorem camera_string_roundtrip_witness :
    9 ≤ ([1, 2, 3, 4, 5, 6, 7, 8, 9, 10] : List ℝ).length
      ∧ (setFromVals camA [1, 2, 3, 4, 5, 6, 7, 8, 9, 10]).2.fov = 10
      ∧ (setFromVals camA [1, 2, 3, 4, 5, 6, 7, 8, 9, 10]).2.nearFar = camA.nearFar := by
  have h := (camera_string_roundtrip camA camA [1, 2, 3, 4, 5, 6, 7, 8, 9, 10]).2.2
    (by norm_num)
  refine ⟨by norm_num, ?_, ?_⟩
  · rw [h.2.2.2.2.1]
    norm_num [List.getD]
  · rw [h.2.2.2.2.2.1]
    norm_num

end nvutils

namespace nvutils

/-- C2 counterexample test. -/
theorem updateAnim_no_lower_clamp_cex :
    (updateAnim manipAnim 500 0).current.ctr.x = -(19 / 8)
      ∧ ¬(0 ≤ (updateAnim manipAnim 500 0).current.ctr.x) := by
  have h1 : (updateAnim manipAnim 500 0).current.ctr.x = -(19 / 8) := by
    norm_num [updateAnim, manipAnim, camSnapA, camGoalB, smootherstep, mix3, mixR,
      updateLookatMatrix]
  exact ⟨h1, by rw [h1]; norm_num⟩

/-- C2 amended test. -/
theorem updateAnim_progress (s : Manip) (tMs now : ℝ) (snap : Camera)
    (hAnim : s.isAnimating = true) (hd : 0 < s.duration) (ht : 0 ≤ tMs)
    (hsnap : s.snapshot = some snap) :
    (1000 * s.duration ≤ tMs - s.startTime →
        (updateAnim s tMs now).current = s.goal
          ∧ (updateAnim s tMs now).snapshot = none
          ∧ (updateAnim s tMs now).isAnimating = false)
      ∧ (smootherstep (min ((tMs - s.startTime) / 1000 / s.duration) 1) < 1 →
          (updateAnim s tMs now).current.ctr
              = mix3 snap.ctr s.goal.ctr
                  (smootherstep (min ((tMs - s.startTime) / 1000 / s.duration) 1))
            ∧ (updateAnim s tMs now).isAnimating = true) := by
  constructor
  · intro hel
    have hmin : min ((tMs - s.startTime) / 1000 / s.duration) 1 = 1 := by
      rw [div_div]
      apply min_eq_right
      rw [one_le_div (by positivity)]
      linarith
    have hsm : smootherstep (min ((tMs - s.startTime) / 1000 / s.duration) 1) = 1 := by
      rw [hmin]; norm_num [smootherstep]
    simp only [updateAnim]
    rw [if_neg (not_lt.mpr ht), if_neg (by simp [hAnim])]
    rw [if_pos (le_of_eq hsm.symm)]
    simp [updateLookatMatrix]
  · intro hlt
    simp only [updateAnim]
    rw [if_neg (not_lt.mpr ht), if_neg (by simp [hAnim])]
    rw [if_neg (not_le.mpr hlt)]
    simp only [hsnap]
    simp [updateLookatMatrix, hAnim]

/-- C2 witness test. -/
theorem updateAnim_progress_witness :
    (updateAnim manipAnim 2000 0).current = manipAnim.goal
      ∧ (updateAnim manipAnim 2000 0).snapshot = none
      ∧ (updateAnim manipAnim 2000 0).isAnimating = false :=
  (updateAnim_progress manipAnim 2000 0 camSnapA rfl (by norm_num [manipAnim])
    (by norm_num) rfl).1 (by norm_num [manipAnim])

end nvutils

namespace nvutils

lemma normalize3_of_norm_one {u : Vec3} (h : norm3 u = 1) : normalize3 u = u := by
  ext <;> simp [normalize3, h]

lemma normalize3_smul_pos {d : ℝ} (hd : 0 < d) {v : Vec3} (hv : v ≠ 0) :
    normalize3 (d • v) = normalize3 v := by
  have hn := norm3_pos_of_ne_zero hv
  ext <;> simp [normalize3, norm3_smul, abs_of_pos hd] <;> field_simp <;> ring

/-- The current camera after a successful instant setLookat: eye and center
as requested and the up vector normalized. -/
lemma setLookat_instant_current (s : Manip) (eye center up : Vec3) (now : ℝ)
    (hval : validateCamera (lookatCamera s.current eye center up)) :
    (setLookat s eye center up true now).current
      = { s.current with eye := eye, ctr := center, up := normalize3 up } := by
  simp only [setLookat]
  rw [if_neg (not_not_intro hval)]
  simp only [setCamera]
  rw [if_neg (not_not_intro hval)]
  simp [applyCameraInstant, updateLookatMatrix, lookatCamera, ite_self]

/-- Loose-fit branch of fit, unfolded to its setLookat call. -/
lemma fit_loose_unfold (s : Manip) (boxMin boxMax : Vec3) (instantFit : Bool)
    (aspect now : ℝ) :
    fit s boxMin boxMax instantFit false aspect now
      = setLookat s ((0.5 : ℝ) • (boxMin + boxMax)
            - (max (norm3 ((0.5 : ℝ) • (boxMax - boxMin))
                  / (Real.tan (radians (s.current.fov * 0.5)) * aspect))
                (norm3 ((0.5 : ℝ) • (boxMax - boxMin))
                  / Real.tan (radians (s.current.fov * 0.5))))
              • normalize3 ((0.5 : ℝ) • (boxMin + boxMax) - s.current.eye))
          ((0.5 : ℝ) • (boxMin + boxMax)) s.current.up instantFit now := by
  simp only [fit, Bool.false_eq_true, if_false]

/-- C6 amended test. -/
theorem fit_preserves_direction_to_center (s : Manip) (boxMin boxMax : Vec3) (now : ℝ)
    (bc : Vec3) (idealD : ℝ)
    (hbc : bc = (0.5 : ℝ) • (boxMin + boxMax))
    (hid : idealD = max (norm3 ((0.5 : ℝ) • (boxMax - boxMin))
          / (Real.tan (radians (s.current.fov * 0.5)) * 1))
        (norm3 ((0.5 : ℝ) • (boxMax - boxMin)) / Real.tan (radians (s.current.fov * 0.5))))
    (hne : bc - s.current.eye ≠ 0)
    (hpos : 0 < idealD)
    (hval : validateCamera (lookatCamera s.current
        (bc - idealD • normalize3 (bc - s.current.eye)) bc s.current.up)) :
    (fit s boxMin boxMax true false 1 now).current.ctr = bc
      ∧ (fit s boxMin boxMax true false 1 now).current.eye
          = bc - idealD • normalize3 (bc - s.current.eye)
      ∧ dist3 (fit s boxMin boxMax true false 1 now).current.eye
            (fit s boxMin boxMax true false 1 now).current.ctr = idealD
      ∧ normalize3 ((fit s boxMin boxMax true false 1 now).current.ctr
            - (fit s boxMin boxMax true false 1 now).current.eye)
          = normalize3 (bc - s.current.eye) := by
  subst hbc
  subst hid
  rw [fit_loose_unfold, setLookat_instant_current _ _ _ _ _ hval]
  set bc := (0.5 : ℝ) • (boxMin + boxMax) with hbcdef
  set idealD := max (norm3 ((0.5 : ℝ) • (boxMax - boxMin))
      / (Real.tan (radians (s.current.fov * 0.5)) * 1))
    (norm3 ((0.5 : ℝ) • (boxMax - boxMin)) / Real.tan (radians (s.current.fov * 0.5)))
    with hiddef
  have hdiff : bc - (bc - idealD • normalize3 (bc - s.current.eye))
      = idealD • normalize3 (bc - s.current.eye) := by
    ext <;> simp
  refine ⟨rfl, rfl, ?_, ?_⟩
  · show dist3 (bc - idealD • normalize3 (bc - s.current.eye)) bc = idealD
    rw [dist3, hdiff, norm3_smul, norm3_normalize hne, mul_one, abs_of_pos hpos]
  · show normalize3 (bc - (bc - idealD • normalize3 (bc - s.current.eye)))
        = normalize3 (bc - s.current.eye)
    rw [hdiff, normalize3_smul_pos hpos (normalize3_ne_zero hne),
      normalize3_of_norm_one (norm3_normalize hne)]

lemma manipFit_yfov : Real.tan (radians (manipFit.current.fov * 0.5)) = 1 := by
  have hfov : manipFit.current.fov = 90 := rfl
  rw [hfov, radians, show (90 : ℝ) * 0.5 * (Real.pi / 180) = Real.pi / 4 by ring]
  exact Real.tan_pi_div_four

lemma manipFit_dir : normalize3 ((⟨0, 0, 5⟩ : Vec3) - manipFit.current.eye) = ⟨0, 0, 1⟩ := by
  have hv : (⟨0, 0, 5⟩ : Vec3) - manipFit.current.eye = ⟨0, 0, 5⟩ := by
    ext <;> simp [manipFit]
  have hn : norm3 (⟨0, 0, 5⟩ : Vec3) = 5 := norm3_eval 0 0 5 5 (by norm_num) (by norm_num)
  rw [hv]
  ext <;> simp [normalize3, hn]

lemma manipFit_valid :
    validateCamera (lookatCamera manipFit.current ⟨0, 0, 1⟩ ⟨0, 0, 5⟩ ⟨0, 1, 0⟩) := by
  refine ⟨⟨trivial, trivial, trivial, ?_⟩, ?_, ?_⟩
  · show CameraConstants.EPSILON < norm3 (⟨0, 1, 0⟩ : Vec3)
    rw [norm3_eval 0 1 0 1 (by norm_num) (by norm_num)]
    norm_num [CameraConstants.EPSILON]
  · show ¬dist3 (⟨0, 0, 1⟩ : Vec3) (⟨0, 0, 5⟩ : Vec3) < CameraConstants.MIN_DISTANCE
    have hv : (⟨0, 0, 5⟩ : Vec3) - ⟨0, 0, 1⟩ = ⟨0, 0, 4⟩ := by ext <;> norm_num
    rw [dist3, hv, norm3_eval 0 0 4 4 (by norm_num) (by norm_num)]
    norm_num [CameraConstants.MIN_DISTANCE]
  · show ¬((lookatCamera manipFit.current ⟨0, 0, 1⟩ ⟨0, 0, 5⟩ ⟨0, 1, 0⟩).fov
        < CameraConstants.MIN_FOV ∨ _ < _)
    have hfov : (lookatCamera manipFit.current ⟨0, 0, 1⟩ ⟨0, 0, 5⟩ ⟨0, 1, 0⟩).fov = 90 := rfl
    rw [hfov]
    rintro (h | h) <;> norm_num [CameraConstants.MIN_FOV, CameraConstants.MAX_FOV] at h

/-- C6 witness test. -/
theorem fit_preserves_direction_to_center_witness :
    (fit manipFit ⟨0, 0, 1⟩ ⟨0, 0, 9⟩ true false 1 0).current.ctr = ⟨0, 0, 5⟩
      ∧ dist3 (fit manipFit ⟨0, 0, 1⟩ ⟨0, 0, 9⟩ true false 1 0).current.eye
          (fit manipFit ⟨0, 0, 1⟩ ⟨0, 0, 9⟩ true false 1 0).current.ctr = 4 := by
  have hbc : (⟨0, 0, 5⟩ : Vec3) = (0.5 : ℝ) • ((⟨0, 0, 1⟩ : Vec3) + ⟨0, 0, 9⟩) := by
    ext <;> norm_num
  have hhalf : (0.5 : ℝ) • ((⟨0, 0, 9⟩ : Vec3) - ⟨0, 0, 1⟩) = ⟨0, 0, 4⟩ := by
    ext <;> norm_num
  have hrad : norm3 ((0.5 : ℝ) • ((⟨0, 0, 9⟩ : Vec3) - ⟨0, 0, 1⟩)) = 4 := by
    rw [hhalf]; exact norm3_eval 0 0 4 4 (by norm_num) (by norm_num)
  have hid : (4 : ℝ) = max (norm3 ((0.5 : ℝ) • ((⟨0, 0, 9⟩ : Vec3) - ⟨0, 0, 1⟩))
        / (Real.tan (radians (manipFit.current.fov * 0.5)) * 1))
      (norm3 ((0.5 : ℝ) • ((⟨0, 0, 9⟩ : Vec3) - ⟨0, 0, 1⟩))
        / Real.tan (radians (manipFit.current.fov * 0.5))) := by
    rw [hrad, manipFit_yfov]
    norm_num
  have hne : (⟨0, 0, 5⟩ : Vec3) - manipFit.current.eye ≠ 0 := by
    intro h
    have := congrArg Vec3.z h
    simp [manipFit] at this
  have hval : validateCamera (lookatCamera manipFit.current
      ((⟨0, 0, 5⟩ : Vec3) - (4 : ℝ) • normalize3 ((⟨0, 0, 5⟩ : Vec3) - manipFit.current.eye))
      ⟨0, 0, 5⟩ manipFit.current.up) := by
    rw [manipFit_dir, show (⟨0, 0, 5⟩ : Vec3) - (4 : ℝ) • ⟨0, 0, 1⟩ = ⟨0, 0, 1⟩ by
      ext <;> norm_num]
    exact manipFit_valid
  have h := fit_preserves_direction_to_center manipFit ⟨0, 0, 1⟩ ⟨0, 0, 9⟩ 0 ⟨0, 0, 5⟩ 4
    hbc hid hne (by norm_num) hval
  exact ⟨h.1, h.2.2.1⟩

/-- C6 counterexample test. -/
theorem fit_changes_precall_direction_cex :
    normalize3 ((fit manipFit ⟨0, 0, 1⟩ ⟨0, 0, 9⟩ true false 1 0).current.ctr
        - (fit manipFit ⟨0, 0, 1⟩ ⟨0, 0, 9⟩ true false 1 0).current.eye) = ⟨0, 0, 1⟩
      ∧ normalize3 (manipFit.current.ctr - manipFit.current.eye) = ⟨1, 0, 0⟩
      ∧ (⟨0, 0, 1⟩ : Vec3) ≠ ⟨1, 0, 0⟩ := by
  refine ⟨?_, ?_, ?_⟩
  · rw [fit_loose_unfold]
    have hbc : (0.5 : ℝ) • ((⟨0, 0, 1⟩ : Vec3) + ⟨0, 0, 9⟩) = ⟨0, 0, 5⟩ := by
      ext <;> norm_num
    have hhalf : (0.5 : ℝ) • ((⟨0, 0, 9⟩ : Vec3) - ⟨0, 0, 1⟩) = ⟨0, 0, 4⟩ := by
      ext <;> norm_num
    rw [hbc, hhalf, norm3_eval 0 0 4 4 (by norm_num) (by norm_num), manipFit_yfov,
      manipFit_dir, show max ((4 : ℝ) / (1 * 1)) ((4 : ℝ) / 1) = 4 by norm_num,
      show (⟨0, 0, 5⟩ : Vec3) - (4 : ℝ) • ⟨0, 0, 1⟩ = ⟨0, 0, 1⟩ by ext <;> norm_num,
      show manipFit.current.up = ⟨0, 1, 0⟩ from rfl,
      setLookat_instant_current _ _ _ _ _ manipFit_valid]
    show normalize3 ((⟨0, 0, 5⟩ : Vec3) - ⟨0, 0, 1⟩) = ⟨0, 0, 1⟩
    rw [show (⟨0, 0, 5⟩ : Vec3) - ⟨0, 0, 1⟩ = ⟨0, 0, 4⟩ by ext <;> norm_num]
    have hn : norm3 (⟨0, 0, 4⟩ : Vec3) = 4 := norm3_eval 0 0 4 4 (by norm_num) (by norm_num)
    ext <;> simp [normalize3, hn]
  · have hv : manipFit.current.ctr - manipFit.current.eye = ⟨1, 0, 0⟩ := by
      ext <;> simp [manipFit]
    have hn : norm3 (⟨1, 0, 0⟩ : Vec3) = 1 := norm3_eval 1 0 0 1 (by norm_num) (by norm_num)
    rw [hv]
    exact normalize3_of_norm_one hn
  · intro h
    have := congrArg Vec3.x h
    norm_num at this

end nvutils
